import Mathlib

/-!
Shallow embedding of the Telegram school-materials bot (`src/bot.py`) and
verification of the frozen specification claims.

The bot keeps three SQLite tables (`users`, `materials`, `requests`) and an
in-memory per-user context bag `context.user_data`.  We model the tables as
Lean lists, the context bag as an association list from string keys to a
small universe of values (`CVal`) covering every value the handlers store,
and each conversation handler as a pure function from
(database, context, inbound text, external-effect oracles) to an updated
state.  Handler results carry the `ConversationHandler` return state, the
updated context, the updated database and the outbound message texts; a
Python exception escaping a handler is modelled as `Except.error` carrying
the message together with the context and database as mutated up to the
raise point (mutations before an exception persist in the real bot, since
`context.user_data` and the committed database survive the error handler).
-/

namespace SchoolBot

/-! ### Context bag (`context.user_data`) -/

/-- The value universe for the `context.user_data` dictionary: the handlers
store strings, ints (material ids), lists of topic strings, the browse-flow
`materials_info` dict (topic ↦ (downloads, file_name)) and the delete-flow
`delete_materials_info` dict (topic ↦ (id, downloads, file_name, upload_date)). -/
inductive CVal where
  | str : String → CVal
  | num : Nat → CVal
  | strs : List String → CVal
  | minfo : List (String × Nat × String) → CVal
  | dinfo : List (String × Nat × Nat × String × String) → CVal
deriving DecidableEq, Repr

/-- The context bag, an association list with Python-dict update semantics. -/
abbrev Ctx := List (String × CVal)

/-- Dictionary lookup (`d[k]` / `d.get(k)`). -/
def cget (ctx : Ctx) (k : String) : Option CVal :=
  (ctx.find? (fun p => p.1 = k)).map (fun p => p.2)

/-- Dictionary membership (`k in d`). -/
def chas (ctx : Ctx) (k : String) : Bool :=
  (cget ctx k).isSome

/-- Dictionary assignment (`d[k] = v`): replace an existing binding in place,
else append. -/
def cset (ctx : Ctx) (k : String) (v : CVal) : Ctx :=
  if ctx.any (fun p => p.1 = k) then
    ctx.map (fun p => if p.1 = k then (k, v) else p)
  else
    ctx ++ [(k, v)]

/-- Dictionary deletion (`del d[k]`), total like the guarded deletes in the code. -/
def cdel (ctx : Ctx) (k : String) : Ctx :=
  ctx.filter (fun p => p.1 ≠ k)

/-- Project a context value to the string the handlers expect. -/
def asStr : Option CVal → Option String
  | some (.str s) => some s
  | _ => none

/-- Project a context value to a topic list. -/
def asStrs : Option CVal → Option (List String)
  | some (.strs l) => some l
  | _ => none

/-! ### Conversation states

The integer state constants of `bot.py` (`range(4)`, `range(4, 9)`,
`range(9, 14)`, `range(14, 19)`) and `ConversationHandler.END = -1`. -/

def SELECT_CLASS : Int := 0
def SELECT_SUBJECT : Int := 1
def SELECT_CATEGORY : Int := 2
def SELECT_TOPIC : Int := 3
def REQUEST_CLASS : Int := 4
def REQUEST_SUBJECT : Int := 5
def REQUEST_CATEGORY : Int := 6
def REQUEST_TOPIC : Int := 7
def REQUEST_DESC : Int := 8
def ADMIN_ADD_CLASS : Int := 9
def ADMIN_ADD_SUBJECT : Int := 10
def ADMIN_ADD_CATEGORY : Int := 11
def ADMIN_ADD_TOPIC : Int := 12
def ADMIN_ADD_FILE : Int := 13
def ADMIN_DELETE_SELECT_CLASS : Int := 14
def ADMIN_DELETE_SELECT_SUBJECT : Int := 15
def ADMIN_DELETE_SELECT_CATEGORY : Int := 16
def ADMIN_DELETE_SELECT_TOPIC : Int := 17
def ADMIN_DELETE_CONFIRM : Int := 18
def END_CONV : Int := -1

/-! ### Taxonomy resolver (`get_subjects_for_class`) -/

/-- The eight fixed core subjects (`base_subjects` in the source). -/
def base_subjects : List String :=
  ["Русский", "Литература", "История",
   "Греческий", "Латынь", "Биология",
   "Английский", "Немецкий"]

/-- `get_subjects_for_class` on the already-converted integer grade: combined
math for grades 5–6 else algebra and geometry, then the core subjects, then
geography always, physics from grade 6, chemistry from grade 7. -/
def get_subjects_for_class (class_num_int : Nat) : List String :=
  (if class_num_int = 5 ∨ class_num_int = 6 then
     ["Математика"]
   else
     ["Алгебра", "Геометрия"])
  ++ base_subjects
  ++ ["География"]
  ++ (if 6 ≤ class_num_int then ["Физика"] else [])
  ++ (if 7 ≤ class_num_int then ["Химия"] else [])

/-- The `int(class_num)` conversion at the top of `get_subjects_for_class`:
a non-numeric string raises `ValueError`.  (Python `int` also accepts signs
and surrounding whitespace, which never occur in the stored grade strings.) -/
def parse_class (s : String) : Option Nat :=
  let cs := s.toList
  if cs ≠ [] ∧ cs.all Char.isDigit then
    some (cs.foldl (fun n c => n * 10 + (c.toNat - '0'.toNat)) 0)
  else none

/-- `text.split()[0]`: first whitespace-separated word, `none` when the split
list is empty (Python raises `IndexError` there). -/
def firstWord (text : String) : Option String :=
  let w := (text.toList.dropWhile Char.isWhitespace).takeWhile
             (fun c => ¬ c.isWhitespace)
  if w.isEmpty then none else some w.asString

/-- The fixed category list offered by `category_selection_keyboard`. -/
def categories : List String :=
  ["Конспекты", "Билеты к зачету", "Шпаргалки", "Учебники"]

/-! ### Database model -/

/-- A row of the `materials` table. -/
structure Material where
  id : Nat
  cls : String
  subject : String
  category : String
  topic : String
  file_path : String
  file_name : String
  file_size : Nat
  downloads : Nat
  uploaded_by : Nat
deriving DecidableEq, Repr

/-- A row of the `requests` table (`completed_at` is an abstract timestamp,
`none` until completion). -/
structure Request where
  id : Nat
  user_id : Nat
  cls : String
  subject : String
  category : String
  topic : String
  description : Option String
  status : String
  completed_at : Option Nat
deriving DecidableEq, Repr

/-- The persistent store: user rows are (telegram_id, role) pairs. -/
structure DB where
  users : List (Nat × String)
  materials : List Material
  requests : List Request
deriving DecidableEq, Repr

/-- Does a material row match the taxonomy key (the SQL
`WHERE class = ? AND subject = ? AND category = ? AND topic = ?`)? -/
def matchesKey (m : Material) (cls subj cat top : String) : Bool :=
  m.cls = cls ∧ m.subject = subj ∧ m.category = cat ∧ m.topic = top

/-- `get_user`: return the stored role, inserting a fresh `student` row when
the user is unknown.  Returns the role together with the updated user table. -/
def get_user (users : List (Nat × String)) (uid : Nat) : String × List (Nat × String) :=
  match users.find? (fun p => p.1 = uid) with
  | some p => (p.2, users)
  | none => ("student", users ++ [(uid, "student")])

/-- `is_admin`: stored role is `admin` or the id is in the static allow-list.
`get_user` runs first, so the query may insert a fresh student row. -/
def is_admin (users : List (Nat × String)) (adminIds : List Nat) (uid : Nat) :
    Bool × List (Nat × String) :=
  let r := get_user users uid
  (decide (r.1 = "admin") || adminIds.contains uid, r.2)

/-- The `UPDATE materials SET downloads = downloads + 1 WHERE class = ? AND
subject = ? AND category = ? AND topic = ?` statement of `select_topic`:
every matching row is incremented. -/
def incrementDownload (ms : List Material) (cls subj cat top : String) : List Material :=
  ms.map (fun m =>
    if matchesKey m cls subj cat top then
      { m with downloads := m.downloads + 1 }
    else m)

/-! ### Handler results

A handler returns the next `ConversationHandler` state, the context, the
database and the outbound message texts (we keep the leading line of each
`reply_text`).  An escaping Python exception is an `Except.error` carrying a
description and the context/database as mutated before the raise. -/

structure HRes where
  state : Int
  ctx : Ctx
  db : DB
  msgs : List String
deriving DecidableEq, Repr

abbrev HM := Except (String × Ctx × DB) HRes

/-- Sorted query rows, modelling `ORDER BY topic` (stable, by topic string). -/
def insertRow (r : String × Nat × String) :
    List (String × Nat × String) → List (String × Nat × String)
  | [] => [r]
  | s :: rest => if s.1 < r.1 then s :: insertRow r rest else r :: s :: rest

def sortRows (rows : List (String × Nat × String)) : List (String × Nat × String) :=
  rows.foldr insertRow []

/-- Generic dict update, for the `{m[0]: (m[1], m[2]) for m in materials}`
comprehensions (a later duplicate key overwrites an earlier one). -/
def dsetG {α : Type} (d : List (String × α)) (k : String) (v : α) : List (String × α) :=
  if d.any (fun p => p.1 = k) then
    d.map (fun p => if p.1 = k then (k, v) else p)
  else
    d ++ [(k, v)]

def dictOf {α : Type} (ps : List (String × α)) : List (String × α) :=
  ps.foldl (fun d p => dsetG d p.1 p.2) []

/-- Generic dict lookup (`d[k]`, raising `KeyError` when absent). -/
def dgetG {α : Type} (d : List (String × α)) (k : String) : Option α :=
  (d.find? (fun p => p.1 = k)).map (fun p => p.2)

/-! ### Browse flow handlers -/

/-- `select_class`: extract the grade from "`N` класс", re-prompt unless it is
a digit string in 5..11 (the `try`/`except` turns every parse failure into the
re-prompt), else store `class`/`class_text` and move on. -/
def select_class (uid : Nat) (db : DB) (ctx : Ctx) (text : String) : HM :=
  if text = "Назад" then
    let r := get_user db.users uid
    .ok ⟨END_CONV, ctx, { db with users := r.2 }, ["Возвращаемся в главное меню..."]⟩
  else
    match firstWord text with
    | none =>
      .ok ⟨SELECT_CLASS, ctx, db, ["Пожалуйста, выберите класс из списка:"]⟩
    | some w =>
      match parse_class w with
      | none =>
        .ok ⟨SELECT_CLASS, ctx, db, ["Пожалуйста, выберите класс из списка:"]⟩
      | some n =>
        if n < 5 ∨ 11 < n then
          .ok ⟨SELECT_CLASS, ctx, db, ["Пожалуйста, выберите класс из списка:"]⟩
        else
          .ok ⟨SELECT_SUBJECT,
               cset (cset ctx "class" (.str w)) "class_text" (.str text), db,
               ["Класс: " ++ text ++ "\n\nТеперь выберите предмет:"]⟩

/-- `select_subject`: "Назад" returns to grade selection; a missing `class`
key ends the conversation with a session error; otherwise the subject must be
in the grade's list, else re-prompt.  Re-prompting rebuilds the subject
keyboard, whose `int(class_num)` raises on a malformed stored grade. -/
def select_subject (db : DB) (ctx : Ctx) (text : String) : HM :=
  if text = "Назад" then
    .ok ⟨SELECT_CLASS, ctx, db, ["Выберите класс:"]⟩
  else if ¬ chas ctx "class" then
    .ok ⟨END_CONV, ctx, db, ["Ошибка сессии. Начните заново."]⟩
  else
    match asStr (cget ctx "class") with
    | none => .error ("TypeError: int() of a non-string context value", ctx, db)
    | some cn =>
      match parse_class cn with
      | none => .error ("ValueError: invalid literal for int()", ctx, db)
      | some n =>
        if text ∈ get_subjects_for_class n then
          .ok ⟨SELECT_CATEGORY, cset ctx "subject" (.str text), db,
               ["Предмет: " ++ text ++ "\n\nВыберите категорию материалов:"]⟩
        else
          .ok ⟨SELECT_SUBJECT, ctx, db, ["Пожалуйста, выберите предмет из списка:"]⟩

/-- `select_category`: "Назад" goes to the subject list when `class` is still
truthy in the context (rebuilding the keyboard, so a malformed grade raises),
else ends with the session error.  Otherwise `class`/`subject` must be
present; then the input text — validated against nothing — is stored as the
category, the store is queried and an empty result re-prompts the same state
(with the bogus category already in the context bag). -/
def select_category (db : DB) (ctx : Ctx) (text : String) : HM :=
  if text = "Назад" then
    match cget ctx "class" with
    | some (.str cn) =>
      if cn = "" then
        .ok ⟨END_CONV, ctx, db, ["Ошибка сессии. Начните заново."]⟩
      else
        match parse_class cn with
        | none => .error ("ValueError: invalid literal for int()", ctx, db)
        | some _ => .ok ⟨SELECT_SUBJECT, ctx, db, ["Выберите предмет:"]⟩
    | some _ => .error ("TypeError: int() of a non-string context value", ctx, db)
    | none => .ok ⟨END_CONV, ctx, db, ["Ошибка сессии. Начните заново."]⟩
  else if ¬ (chas ctx "class" ∧ chas ctx "subject") then
    .ok ⟨END_CONV, ctx, db, ["Ошибка сессии. Начните заново."]⟩
  else
    let ctx1 := cset ctx "category" (.str text)
    match asStr (cget ctx "class"), asStr (cget ctx "subject") with
    | some cls, some subj =>
      let rows := sortRows ((db.materials.filter
          (fun m => m.cls = cls ∧ m.subject = subj ∧ m.category = text)).map
          (fun m => (m.topic, m.downloads, m.file_name)))
      if rows = [] then
        .ok ⟨SELECT_CATEGORY, ctx1, db,
             ["В категории '" ++ text ++ "' пока нет материалов."]⟩
      else
        let topics := rows.map (fun r => r.1)
        let ctx2 := cset (cset ctx1 "topics" (.strs topics))
                         "materials_info" (.minfo (dictOf rows))
        .ok ⟨SELECT_TOPIC, ctx2, db,
             ["Категория: " ++ text ++ "\n\nВыберите тему:"]⟩
    | _, _ =>
      -- a non-string class/subject would make the SQL parameter binding use
      -- the raw object; no handler ever stores one under these keys
      .error ("TypeError: unexpected context value", ctx1, db)

/-- `select_topic`: terminal step of the Browse flow.  The topic must be in
the stored list; the first matching material row is fetched and, when found,
the download counter of every matching row is incremented *before* the file
is sent, so a delivery failure (modelled by `deliveryOk = false`, the
`FileNotFoundError` branch) does not undo the increment. -/
def select_topic (uid : Nat) (db : DB) (ctx : Ctx) (text : String)
    (deliveryOk : Bool) : HM :=
  if text = "Назад к категориям" then
    .ok ⟨SELECT_CATEGORY, ctx, db, ["Выберите категорию:"]⟩
  else if ¬ (chas ctx "class" ∧ chas ctx "subject" ∧ chas ctx "category"
             ∧ chas ctx "topics" ∧ chas ctx "materials_info") then
    .ok ⟨END_CONV, ctx, db, ["Ошибка сессии. Начните заново."]⟩
  else
    match asStrs (cget ctx "topics") with
    | none => .error ("TypeError: argument of type is not iterable", ctx, db)
    | some topics =>
      if ¬ text ∈ topics then
        .ok ⟨SELECT_TOPIC, ctx, db, ["Пожалуйста, выберите тему из списка:"]⟩
      else
        match asStr (cget ctx "class"), asStr (cget ctx "subject"),
              asStr (cget ctx "category") with
        | some cls, some subj, some cat =>
          match db.materials.find? (fun m => matchesKey m cls subj cat text) with
          | none =>
            .ok ⟨END_CONV, ctx, db, ["Файл не найден в базе данных."]⟩
          | some _ =>
            let db1 := { db with
              materials := incrementDownload db.materials cls subj cat text }
            let deliveryMsg :=
              if deliveryOk then ["<document delivered>"]
              else ["Файл не найден на сервере. Сообщите администратору."]
            let r := get_user db1.users uid
            let db2 := { db1 with users := r.2 }
            let ctx1 := cdel (cdel (cdel (cdel (cdel ctx "class") "subject")
                          "category") "topics") "materials_info"
            .ok ⟨END_CONV, ctx1, db2,
                 deliveryMsg ++ ["Файл успешно отправлен!\n\nЧто хотите сделать дальше?"]⟩
        | _, _, _ => .error ("TypeError: unexpected context value", ctx, db)

/-! ### Request flow handlers -/

/-- `request_class`: performs no validation.  The raw text is stored as
`req_class`, its first word as `req_class_num`; building the next keyboard
then calls `get_subjects_for_class`, so a non-numeric input raises after the
context has already been mutated (an empty input raises `IndexError` at
`text.split()[0]`, after `req_class` was stored). -/
def request_class (uid : Nat) (db : DB) (ctx : Ctx) (text : String) : HM :=
  if text = "Назад" then
    let r := get_user db.users uid
    .ok ⟨END_CONV, ctx, { db with users := r.2 }, ["Возвращаемся в главное меню..."]⟩
  else
    let ctx1 := cset ctx "req_class" (.str text)
    match firstWord text with
    | none => .error ("IndexError: list index out of range", ctx1, db)
    | some w =>
      let ctx2 := cset ctx1 "req_class_num" (.str w)
      match parse_class w with
      | none => .error ("ValueError: invalid literal for int()", ctx2, db)
      | some _ =>
        .ok ⟨REQUEST_SUBJECT, ctx2, db,
             ["Класс: " ++ text ++ "\n\nПо какому предмету нужен материал?"]⟩

/-- `request_subject`: there is no explicit context check.  When
`req_class_num` is missing the valid-subject list defaults to `[]`, so the
re-prompt branch runs and rebuilding the keyboard calls
`get_subjects_for_class(None)`, which raises `TypeError` — no session-expired
handling. -/
def request_subject (db : DB) (ctx : Ctx) (text : String) : HM :=
  if text = "Назад" then
    .ok ⟨REQUEST_CLASS, ctx, db, ["Для какого класса?"]⟩
  else
    match cget ctx "req_class_num" with
    | some (.str cn) =>
      match parse_class cn with
      | none => .error ("ValueError: invalid literal for int()", ctx, db)
      | some n =>
        if text ∈ get_subjects_for_class n then
          .ok ⟨REQUEST_CATEGORY, cset ctx "req_subject" (.str text), db,
               ["Предмет: " ++ text ++ "\n\nКакая категория материала нужна?"]⟩
        else
          .ok ⟨REQUEST_SUBJECT, ctx, db, ["Пожалуйста, выберите предмет из списка:"]⟩
    | some _ => .error ("TypeError: int() of a non-string context value", ctx, db)
    | none => .error ("TypeError: int() argument must not be None", ctx, db)

/-- `request_topic`: free text, re-prompted below 3 characters, stored
otherwise. -/
def request_topic (db : DB) (ctx : Ctx) (text : String) : HM :=
  if text.length < 3 then
    .ok ⟨REQUEST_TOPIC, ctx, db,
         ["Слишком короткое название. Введите развернутое название темы:"]⟩
  else
    .ok ⟨REQUEST_DESC, cset ctx "req_topic" (.str text), db,
         ["Тема: " ++ text ++ "\n\nДобавьте описание или требования к материалу"]⟩

/-- `admin_add_material_start`: gate on `is_admin`, then enter the flow. -/
def admin_add_material_start (db : DB) (adminIds : List Nat) (uid : Nat) :
    Int × DB × List String :=
  let r := is_admin db.users adminIds uid
  let db1 := { db with users := r.2 }
  if r.1 then
    (ADMIN_ADD_CLASS, db1, ["Добавление нового материала\n\nДля какого класса материал?"])
  else
    (END_CONV, db1, ["У вас нет прав доступа."])

/-- `admin_delete_material_start`: the same gate for the delete flow. -/
def admin_delete_material_start (db : DB) (adminIds : List Nat) (uid : Nat) :
    Int × DB × List String :=
  let r := is_admin db.users adminIds uid
  let db1 := { db with users := r.2 }
  if r.1 then
    (ADMIN_DELETE_SELECT_CLASS, db1, ["🗑️ Удаление материала\n\nДля какого класса удалить материал?"])
  else
    (END_CONV, db1, ["У вас нет прав доступа."])

/-- `admin_panel`: gate on `is_admin`; when granted, report the pending
request and material counts.  The Boolean records whether access was granted. -/
def admin_panel (db : DB) (adminIds : List Nat) (uid : Nat) :
    Bool × DB × List String :=
  let r := is_admin db.users adminIds uid
  let db1 := { db with users := r.2 }
  if r.1 then
    let pending := (db1.requests.filter (fun q => q.status = "pending")).length
    let total := db1.materials.length
    (true, db1, ["Панель администратора", toString pending, toString total])
  else
    (false, db1, ["У вас нет прав доступа."])

/-- `admin_statistics`: the same gate; when granted, report the catalog
statistics. -/
def admin_statistics (db : DB) (adminIds : List Nat) (uid : Nat) :
    Bool × DB × List String :=
  let r := is_admin db.users adminIds uid
  let db1 := { db with users := r.2 }
  if r.1 then
    let totalMaterials := db1.materials.length
    let totalDownloads := (db1.materials.map (fun m => m.downloads)).sum
    let totalUsers := db1.users.length
    let pending := (db1.requests.filter (fun q => q.status = "pending")).length
    let completed := (db1.requests.filter (fun q => q.status = "completed")).length
    (true, db1, ["📊 Статистика бота", toString totalUsers, toString totalMaterials,
                 toString totalDownloads, toString pending, toString completed])
  else
    (false, db1, ["У вас нет прав доступа."])

/-- `admin_add_subject`: "Назад" returns to the grade state; otherwise the
subject must be in the stored grade's list (a missing or malformed
`add_class_num` raises while computing or re-offering the list, exactly like
`request_subject`). -/
def admin_add_subject (db : DB) (ctx : Ctx) (text : String) : HM :=
  if text = "Назад" then
    .ok ⟨ADMIN_ADD_CLASS, ctx, db, ["Для какого класса?"]⟩
  else
    match cget ctx "add_class_num" with
    | some (.str cn) =>
      match parse_class cn with
      | none => .error ("ValueError: invalid literal for int()", ctx, db)
      | some n =>
        if text ∈ get_subjects_for_class n then
          .ok ⟨ADMIN_ADD_CATEGORY, cset ctx "add_subject" (.str text), db,
               ["Предмет: " ++ text ++ "\n\nВыберите категорию материала:"]⟩
        else
          .ok ⟨ADMIN_ADD_SUBJECT, ctx, db, ["Пожалуйста, выберите предмет из списка:"]⟩
    | some _ => .error ("TypeError: int() of a non-string context value", ctx, db)
    | none => .error ("TypeError: int() argument must not be None", ctx, db)

/-- `admin_add_topic`: free text, re-prompted below 2 characters, stored
otherwise. -/
def admin_add_topic (db : DB) (ctx : Ctx) (text : String) : HM :=
  if text.length < 2 then
    .ok ⟨ADMIN_ADD_TOPIC, ctx, db,
         ["Слишком короткое название. Введите полное название темы:"]⟩
  else
    .ok ⟨ADMIN_ADD_FILE, cset ctx "add_topic" (.str text), db,
         ["Тема: " ++ text ++ "\n\nТеперь отправьте файл с материалом."]⟩

/-! ### AdminAdd terminal step -/

/-- Last index of `'.'` in a character list. -/
def lastDotIdx (cs : List Char) : Option Nat :=
  match cs.reverse.findIdx? (fun c => c = '.') with
  | some j => some (cs.length - 1 - j)
  | none => none

/-- `os.path.splitext` on a bare file name (no directory separators): split
at the last dot unless every character before it is a dot. -/
def splitext (s : String) : String × String :=
  let cs := s.toList
  match lastDotIdx cs with
  | none => (s, "")
  | some d =>
    if (cs.take d).all (fun c => c = '.') then (s, "")
    else ((cs.take d).asString, (cs.drop d).asString)

/-- The collision loop of `admin_add_file`: while the candidate path exists,
try `base_<counter><ext>` with the counter incremented.  The Python loop has
no bound; we run it on fuel (the caller passes `|fs| + 1`, enough attempts to
exhaust the stored paths) and return `none` on exhaustion, which is
unreachable for distinct generated names. -/
def resolve_name (fs : List String) (dir base ext : String) :
    String → Nat → Nat → Option (String × String)
  | cand, counter, fuel =>
    if (dir ++ "/" ++ cand) ∈ fs then
      match fuel with
      | 0 => none
      | f + 1 =>
        resolve_name fs dir base ext (base ++ "_" ++ toString counter ++ ext)
          (counter + 1) f
    else
      some (cand, dir ++ "/" ++ cand)

/-- An incoming attachment: a document with its original name, or a photo
(whose name the code generates from the current timestamp). -/
inductive Attachment where
  | document : String → Attachment
  | photo : String → Attachment
deriving DecidableEq, Repr

/-- `AUTOINCREMENT` id for a fresh row. -/
def freshId (ms : List Material) : Nat :=
  (ms.foldl (fun a m => max a m.id) 0) + 1

/-- The fulfillment matcher's per-request `UPDATE requests SET
status = 'completed', completed_at = CURRENT_TIMESTAMP WHERE id = ?`. -/
def completeById (now : Nat) (rs : List Request) (rid : Nat) : List Request :=
  rs.map (fun r =>
    if r.id = rid then { r with status := "completed", completed_at := some now }
    else r)

/-- Does a pending request match the inserted material's taxonomy key (the
matcher's `SELECT ... WHERE class = ? AND subject = ? AND category = ? AND
topic = ? AND status = 'pending'`)? -/
def matchesPending (r : Request) (cls subj cat top : String) : Bool :=
  r.cls = cls ∧ r.subject = subj ∧ r.category = cat ∧ r.topic = top
  ∧ r.status = "pending"

/-- Result of `admin_add_file`: conversation state, context, database, stored
file paths, admin-facing messages, the per-requester notification attempts
(request id, user id, delivered?) and the auto-resolved count — `some n`
exactly when the "Автоматически выполнено n запросов" message was sent. -/
structure AddRes where
  state : Int
  ctx : Ctx
  db : DB
  fs : List String
  msgs : List String
  notifications : List (Nat × Nat × Bool)
  resolvedCount : Option Nat
deriving DecidableEq, Repr

/-- `admin_add_file`: terminal step of the AdminAdd flow.  Reject non-file
input; require the four `add_*` context keys; store the uploaded file under
`data/<class>_class/<subject>/<category>/<name>`, resolving name collisions
with `_<n>` suffixes; insert the material row (downloads 0); then run the
fulfillment matcher: complete every pending request with the same key and
best-effort notify each requester (`notifyOk`), failures only being logged;
finally report the auto-resolved count when non-zero and clear the `add_*`
context keys.  `now` is the commit timestamp; file download success is
assumed (its failure would take the `except` path before any mutation). -/
def admin_add_file (db : DB) (ctx : Ctx) (att : Option Attachment)
    (file_size : Nat) (uid : Nat) (fs : List String) (notifyOk : Nat → Bool)
    (now : Nat) : AddRes :=
  match att with
  | none =>
    ⟨ADMIN_ADD_FILE, ctx, db, fs, ["Пожалуйста, отправьте файл (документ или изображение)."],
     [], none⟩
  | some a =>
    if ¬ (chas ctx "add_class_num" ∧ chas ctx "add_subject"
          ∧ chas ctx "add_category" ∧ chas ctx "add_topic") then
      ⟨END_CONV, ctx, db, fs, ["Ошибка сессии. Начните заново."], [], none⟩
    else
      match asStr (cget ctx "add_class_num"), asStr (cget ctx "add_subject"),
            asStr (cget ctx "add_category"), asStr (cget ctx "add_topic") with
      | some cn, some subj, some cat, some top =>
        let file_name :=
          match a with
          | .document fn => fn
          | .photo ts => "photo_" ++ ts ++ ".jpg"
        let dir := "data/" ++ cn ++ "_class/" ++ subj ++ "/" ++ cat
        let be := splitext file_name
        match resolve_name fs dir be.1 be.2 file_name 1 (fs.length + 1) with
        | none =>
          -- unreachable collision-loop exhaustion, absorbed by the `except`
          ⟨END_CONV, ctx, db, fs, ["Произошла ошибка"], [], none⟩
        | some nm =>
          let fs1 := fs ++ [nm.2]
          let mat : Material :=
            ⟨freshId db.materials, cn, subj, cat, top, nm.2, nm.1, file_size, 0, uid⟩
          let db1 := { db with materials := db.materials ++ [mat] }
          let pend := db1.requests.filter (fun r => matchesPending r cn subj cat top)
          let pairs := pend.map (fun r => (r.id, r.user_id))
          let requests1 := pairs.foldl (fun rs p => completeById now rs p.1) db1.requests
          let db2 := { db1 with requests := requests1 }
          let notes := pairs.map (fun p => (p.1, p.2, notifyOk p.2))
          let count := if pairs.isEmpty then none else some pairs.length
          let ctx1 := ctx.filter (fun p => ¬ p.1.startsWith "add_")
          ⟨END_CONV, ctx1, db2, fs1,
           ["Материал успешно добавлен!", nm.1], notes, count⟩
      | _, _, _, _ =>
        -- a non-string `add_*` value is never stored by the earlier states
        ⟨END_CONV, ctx, db, fs, ["Произошла ошибка"], [], none⟩

/-! ### AdminDelete handlers -/

/-- `admin_delete_select_subject`: "Назад" returns to the grade state;
otherwise the subject must be in the stored grade's list (a missing or
malformed `delete_class_num` raises while computing or re-offering the
list). -/
def admin_delete_select_subject (db : DB) (ctx : Ctx) (text : String) : HM :=
  if text = "Назад" then
    .ok ⟨ADMIN_DELETE_SELECT_CLASS, ctx, db, ["Для какого класса?"]⟩
  else
    match cget ctx "delete_class_num" with
    | some (.str cn) =>
      match parse_class cn with
      | none => .error ("ValueError: invalid literal for int()", ctx, db)
      | some n =>
        if text ∈ get_subjects_for_class n then
          .ok ⟨ADMIN_DELETE_SELECT_CATEGORY, cset ctx "delete_subject" (.str text), db,
               ["Предмет: " ++ text ++ "\n\nВыберите категорию материала для удаления:"]⟩
        else
          .ok ⟨ADMIN_DELETE_SELECT_SUBJECT, ctx, db,
               ["Пожалуйста, выберите предмет из списка:"]⟩
    | some _ => .error ("TypeError: int() of a non-string context value", ctx, db)
    | none => .error ("TypeError: int() argument must not be None", ctx, db)

/-- `admin_delete_select_topic`: stores the chosen topic *before* looking it
up in `delete_materials_info`, so an unknown topic (or a lost context) raises
`KeyError` with the topic already written into the context. -/
def admin_delete_select_topic (db : DB) (ctx : Ctx) (text : String) : HM :=
  if text = "Назад к категориям" then
    .ok ⟨ADMIN_DELETE_SELECT_CATEGORY, ctx, db, ["Выберите категорию:"]⟩
  else
    let ctx1 := cset ctx "delete_topic" (.str text)
    match cget ctx "delete_materials_info" with
    | some (.dinfo d) =>
      match dgetG d text with
      | none => .error ("KeyError: topic not in delete_materials_info", ctx1, db)
      | some info =>
        let ctx2 := cset (cset ctx1 "delete_material_id" (.num info.1))
                         "delete_file_name" (.str info.2.2.1)
        match db.materials.find? (fun m => m.id = info.1) with
        | none =>
          .ok ⟨END_CONV, ctx2, db, ["Файл не найден в базе данных."]⟩
        | some m =>
          .ok ⟨ADMIN_DELETE_CONFIRM,
               cset ctx2 "delete_file_path" (.str m.file_path), db,
               ["⚠️ ВНИМАНИЕ: Вы собираетесь удалить материал"]⟩
    | _ => .error ("KeyError: delete_materials_info", ctx1, db)

/-- Result of a file-system-touching delete handler. -/
structure FRes where
  state : Int
  ctx : Ctx
  db : DB
  fs : List String
  msgs : List String
deriving DecidableEq, Repr

/-- `admin_delete_confirm`: "Назад" re-offers the topic list, "Нет, отменить"
cancels, "Да, удалить" removes the backing file (best effort) and the
database row and clears the `delete_*` keys; anything else re-prompts the
same state without mutation. -/
def admin_delete_confirm (db : DB) (ctx : Ctx) (fs : List String)
    (text : String) : FRes :=
  if text = "Назад" then
    ⟨ADMIN_DELETE_SELECT_TOPIC, ctx, db, fs, ["Выберите тему для удаления:"]⟩
  else if text = "Нет, отменить" then
    ⟨END_CONV, ctx, db, fs, ["Удаление отменено."]⟩
  else if text = "Да, удалить" then
    let ctx1 := ctx.filter (fun p => ¬ p.1.startsWith "delete_")
    match asStr (cget ctx "delete_file_path") with
    | none =>
      -- `os.path.exists(None)` raises; the `except` reports the error
      ⟨END_CONV, ctx1, db, fs, ["❌ Ошибка при удалении материала"]⟩
    | some fp =>
      let fileDeleted := fp ∈ fs
      let fs1 := fs.filter (fun p => p ≠ fp)
      let db1 :=
        match cget ctx "delete_material_id" with
        | some (.num mid) =>
          { db with materials := db.materials.filter (fun m => m.id ≠ mid) }
        | _ => db
      ⟨END_CONV, ctx1, db1, fs1,
       ["✅ Материал успешно удален!",
        if fileDeleted then "Файл удален: Да" else "Файл удален: Нет"]⟩
  else
    ⟨ADMIN_DELETE_CONFIRM, ctx, db, fs,
     ["Пожалуйста, выберите вариант из клавиатуры:"]⟩

/-! # Claim C1 -/

/-- C1: for every grade g ∈ [5,11], `get_subjects_for_class g` contains
География; contains Физика iff g ≥ 6; contains Химия iff g ≥ 7; contains the
combined Математика iff g ∈ {5,6}, and otherwise contains both Алгебра and
Геометрия and never Математика; and for g = 7 the list is exactly
[Алгебра, Геометрия, the eight core subjects, География, Физика, Химия] in
that order.  Determinism is immediate: the resolver is a pure function. -/
theorem C1_subjects_for_grade (g : Nat) (hg : 5 ≤ g ∧ g ≤ 11) :
    "География" ∈ get_subjects_for_class g
    ∧ ("Физика" ∈ get_subjects_for_class g ↔ 6 ≤ g)
    ∧ ("Химия" ∈ get_subjects_for_class g ↔ 7 ≤ g)
    ∧ ("Математика" ∈ get_subjects_for_class g ↔ (g = 5 ∨ g = 6))
    ∧ (¬ (g = 5 ∨ g = 6) →
        "Алгебра" ∈ get_subjects_for_class g
        ∧ "Геометрия" ∈ get_subjects_for_class g
        ∧ "Математика" ∉ get_subjects_for_class g)
    ∧ get_subjects_for_class 7 =
        ["Алгебра", "Геометрия",
         "Русский", "Литература", "История",
         "Греческий", "Латынь", "Биология",
         "Английский", "Немецкий",
         "География", "Физика", "Химия"] := by
  obtain ⟨h5, h11⟩ := hg
  interval_cases g <;> decide

/-- Witness for C1 at the concrete grade 7. -/
theorem C1_subjects_for_grade_witness :
    (5 ≤ 7 ∧ 7 ≤ 11)
    ∧ ("География" ∈ get_subjects_for_class 7
       ∧ ("Физика" ∈ get_subjects_for_class 7 ↔ 6 ≤ 7)
       ∧ ("Химия" ∈ get_subjects_for_class 7 ↔ 7 ≤ 7)
       ∧ ("Математика" ∈ get_subjects_for_class 7 ↔ (7 = 5 ∨ 7 = 6))
       ∧ (¬ ((7 : Nat) = 5 ∨ (7 : Nat) = 6) →
           "Алгебра" ∈ get_subjects_for_class 7
           ∧ "Геометрия" ∈ get_subjects_for_class 7
           ∧ "Математика" ∉ get_subjects_for_class 7)
       ∧ get_subjects_for_class 7 =
          ["Алгебра", "Геометрия",
           "Русский", "Литература", "История",
           "Греческий", "Латынь", "Биология",
           "Английский", "Немецкий",
           "География", "Физика", "Химия"]) :=
  ⟨by decide, C1_subjects_for_grade 7 (by decide)⟩

/-! ### Shared helper lemmas -/

theorem find?_append {α : Type} (p : α → Bool) (l₁ l₂ : List α) :
    (l₁ ++ l₂).find? p =
      match l₁.find? p with
      | some x => some x
      | none => l₂.find? p := by
  induction l₁ with
  | nil => simp
  | cons a t ih => by_cases h : p a <;> simp [List.find?, h, ih]

theorem length_le_one_of_nodup_const {α : Type} [DecidableEq α] (l : List α)
    (a : α) (hnd : l.Nodup) (hall : ∀ x ∈ l, x = a) : l.length ≤ 1 := by
  match l with
  | [] => simp
  | [x] => simp
  | x :: y :: t =>
    exfalso
    have hx := hall x (by simp)
    have hy := hall y (by simp)
    have : x ≠ y := by
      have := List.nodup_cons.mp hnd
      exact fun h => this.1 (h ▸ List.mem_cons_self y t)
    exact this (hx.trans hy.symm)

theorem matchesKey_set_downloads (m : Material) (d : Nat) (c s a t : String) :
    matchesKey { m with downloads := d } c s a t = matchesKey m c s a t := rfl

/-! # Claim C7 -/

/-- C7: `incrementDownload` on a key increments the `downloads` field of every
matching row by exactly one and changes nothing else (the non-matching rows
and every other field are returned verbatim); iterated n times, a row
matching the key gains exactly n, so a freshly inserted row (downloads = 0)
reaches n.  Stated positionally: the row at any index i after n iterations is
the original row with `downloads + n` when it matches, unchanged otherwise. -/
theorem C7_incrementDownload (cls subj cat top : String) (n : Nat) :
    ∀ (ms : List Material) (i : Nat) (m : Material), ms[i]? = some m →
      ((fun l => incrementDownload l cls subj cat top)^[n] ms).length = ms.length
      ∧ ((fun l => incrementDownload l cls subj cat top)^[n] ms)[i]? =
          some (if matchesKey m cls subj cat top then
                  { m with downloads := m.downloads + n }
                else m) := by
  induction n with
  | zero =>
    intro ms i m hm
    refine ⟨by simp, ?_⟩
    simp only [Function.iterate_zero_apply]
    by_cases h : matchesKey m cls subj cat top <;> simp only [h, if_true, if_false,
      Nat.add_zero] <;> exact hm
  | succ n ih =>
    intro ms i m hm
    have hstep : (incrementDownload ms cls subj cat top)[i]? =
        some (if matchesKey m cls subj cat top then
                { m with downloads := m.downloads + 1 }
              else m) := by
      simp [incrementDownload, List.getElem?_map, hm]
    obtain ⟨hlen, hget⟩ := ih (incrementDownload ms cls subj cat top) i _ hstep
    rw [Function.iterate_succ_apply]
    refine ⟨by rw [hlen]; simp [incrementDownload], ?_⟩
    rw [hget]
    by_cases h : matchesKey m cls subj cat top
    · have hd : m.downloads + 1 + n = m.downloads + (n + 1) := by omega
      simp only [h, if_true, matchesKey_set_downloads]
      rw [hd]
    · simp [h]

/-- Witness for C7: a concrete catalog of two rows, one matching; after three
iterations the matching row's counter went 0 → 3 and the other is untouched. -/
theorem C7_incrementDownload_witness :
    ([⟨1, "9", "Физика", "Конспекты", "Законы Ньютона", "p", "n.pdf", 7, 0, 1⟩,
      ⟨2, "9", "Физика", "Конспекты", "Оптика", "q", "m.pdf", 8, 5, 1⟩] :
        List Material)[0]? =
      some ⟨1, "9", "Физика", "Конспекты", "Законы Ньютона", "p", "n.pdf", 7, 0, 1⟩
    ∧ (((fun l => incrementDownload l "9" "Физика" "Конспекты" "Законы Ньютона")^[3]
        [⟨1, "9", "Физика", "Конспекты", "Законы Ньютона", "p", "n.pdf", 7, 0, 1⟩,
         ⟨2, "9", "Физика", "Конспекты", "Оптика", "q", "m.pdf", 8, 5, 1⟩]).length = 2
       ∧ ((fun l => incrementDownload l "9" "Физика" "Конспекты" "Законы Ньютона")^[3]
        [⟨1, "9", "Физика", "Конспекты", "Законы Ньютона", "p", "n.pdf", 7, 0, 1⟩,
         ⟨2, "9", "Физика", "Конспекты", "Оптика", "q", "m.pdf", 8, 5, 1⟩])[0]? =
          some (if matchesKey
                    ⟨1, "9", "Физика", "Конспекты", "Законы Ньютона", "p", "n.pdf", 7, 0, 1⟩
                    "9" "Физика" "Конспекты" "Законы Ньютона" then
                  { (⟨1, "9", "Физика", "Конспекты", "Законы Ньютона", "p", "n.pdf", 7, 0, 1⟩ :
                      Material) with downloads := 0 + 3 }
                else
                  ⟨1, "9", "Физика", "Конспекты", "Законы Ньютона", "p", "n.pdf", 7, 0, 1⟩)) :=
  ⟨by decide,
   C7_incrementDownload "9" "Физика" "Конспекты" "Законы Ньютона" 3 _ 0 _ (by decide)⟩

/-! # Claim C9 -/

/-- C9: `get_user` is idempotent.  If a row for the identity exists it is
returned with the table unchanged; otherwise exactly one `student` row is
appended; a second call returns the same result on the same table, which by
then holds exactly one row for the identity (under the primary-key invariant
that ids are distinct). -/
theorem C9_get_user_idempotent (users : List (Nat × String)) (uid : Nat)
    (hnd : (users.map Prod.fst).Nodup) :
    (∀ p, users.find? (fun q => q.1 = uid) = some p →
        get_user users uid = (p.2, users))
    ∧ (users.find? (fun q => q.1 = uid) = none →
        get_user users uid = ("student", users ++ [(uid, "student")]))
    ∧ get_user (get_user users uid).2 uid = get_user users uid
    ∧ ((get_user users uid).2.filter (fun q => q.1 = uid)).length = 1 := by
  refine ⟨?_, ?_, ?_, ?_⟩
  · intro p hp; simp [get_user, hp]
  · intro hp; simp [get_user, hp]
  · match hfind : users.find? (fun q => q.1 = uid) with
    | some p => simp [get_user, hfind]
    | none =>
      simp only [get_user, hfind]
      rw [find?_append, hfind]
      simp [List.find?]
  · match hfind : users.find? (fun q => q.1 = uid) with
    | some p =>
      simp only [get_user, hfind]
      have hmem : p ∈ users ∧ p.1 = uid := by
        have h1 := List.find?_some hfind
        have h2 := List.mem_of_find?_eq_some hfind
        exact ⟨h2, by simpa using h1⟩
      have hle : (users.filter (fun q => q.1 = uid)).length ≤ 1 := by
        refine length_le_one_of_nodup_const _ p ?_ ?_
        · exact (hnd.sublist ((List.filter_sublist users).map Prod.fst)).of_map
        · intro x hx
          have hx' := List.mem_filter.mp hx
          have hx1 : x.1 = uid := by simpa using hx'.2
          exact List.inj_on_of_nodup_map hnd hx'.1 hmem.1 (hx1.trans hmem.2.symm)
      have hge : 1 ≤ (users.filter (fun q => q.1 = uid)).length := by
        have : p ∈ users.filter (fun q => q.1 = uid) :=
          List.mem_filter.mpr ⟨hmem.1, by simp [hmem.2]⟩
        exact List.length_pos.mpr (fun h => by simp [h] at this)
      omega
    | none =>
      simp only [get_user, hfind]
      rw [List.filter_append]
      have : users.filter (fun q => q.1 = uid) = [] := by
        rw [List.filter_eq_nil_iff]
        intro a ha hpa
        exact (List.find?_eq_none.mp hfind a ha) hpa
      simp [this, List.filter]

/-- Witness for C9 on a concrete two-row table without a row for id 7. -/
theorem C9_get_user_idempotent_witness :
    ((([(1, "admin"), (2, "student")] : List (Nat × String)).map Prod.fst).Nodup)
    ∧ ((∀ p, ([(1, "admin"), (2, "student")] : List (Nat × String)).find?
            (fun q => q.1 = 7) = some p →
          get_user [(1, "admin"), (2, "student")] 7 = (p.2, [(1, "admin"), (2, "student")]))
       ∧ (([(1, "admin"), (2, "student")] : List (Nat × String)).find?
            (fun q => q.1 = 7) = none →
          get_user [(1, "admin"), (2, "student")] 7 =
            ("student", [(1, "admin"), (2, "student")] ++ [(7, "student")]))
       ∧ get_user (get_user [(1, "admin"), (2, "student")] 7).2 7 =
           get_user [(1, "admin"), (2, "student")] 7
       ∧ ((get_user [(1, "admin"), (2, "student")] 7).2.filter
            (fun q => q.1 = 7)).length = 1) :=
  ⟨by decide, C9_get_user_idempotent [(1, "admin"), (2, "student")] 7 (by decide)⟩

/-! # Claim C10 -/

/-- C10: `is_admin` is true exactly when the stored role is `admin` or the
identity is in the static `ADMIN_IDS` allow-list (when no row exists,
`get_user` first creates a `student` row, so only the allow-list can grant);
consequently allow-list membership alone opens each admin-only entry point
(AdminAdd, AdminDelete, the admin panel and the statistics view) for any user
table, including one where the stored role is `student` or where no row
exists. -/
theorem C10_is_admin_allowlist (db : DB) (adminIds : List Nat) (uid : Nat) :
    ((is_admin db.users adminIds uid).1 = true ↔
      ((db.users.find? (fun p => p.1 = uid)).map (fun p => p.2) = some "admin"
       ∨ uid ∈ adminIds))
    ∧ (uid ∈ adminIds →
        (admin_add_material_start db adminIds uid).1 = ADMIN_ADD_CLASS
        ∧ (admin_delete_material_start db adminIds uid).1 = ADMIN_DELETE_SELECT_CLASS
        ∧ (admin_panel db adminIds uid).1 = true
        ∧ (admin_statistics db adminIds uid).1 = true) := by
  have hadm : (is_admin db.users adminIds uid).1 = true ↔
      ((db.users.find? (fun p => p.1 = uid)).map (fun p => p.2) = some "admin"
       ∨ uid ∈ adminIds) := by
    match hfind : db.users.find? (fun p => p.1 = uid) with
    | some p =>
      simp only [is_admin, get_user, hfind, Bool.or_eq_true, decide_eq_true_eq,
        List.elem_iff, Option.map_some]
      constructor
      · rintro (h | h)
        · exact Or.inl (by simp [h])
        · exact Or.inr h
      · rintro (h | h)
        · exact Or.inl (by simpa using h)
        · exact Or.inr h
    | none =>
      simp only [is_admin, get_user, hfind, Bool.or_eq_true, decide_eq_true_eq,
        List.elem_iff, Option.map_none]
      constructor
      · rintro (h | h)
        · exact absurd h (by decide)
        · exact Or.inr h
      · rintro (h | h)
        · exact absurd h (by simp)
        · exact Or.inr h
  refine ⟨hadm, fun hin => ?_⟩
  have htrue : (is_admin db.users adminIds uid).1 = true := hadm.mpr (Or.inr hin)
  refine ⟨?_, ?_, ?_, ?_⟩
  · simp [admin_add_material_start, htrue]
  · simp [admin_delete_material_start, htrue]
  · simp [admin_panel, htrue]
  · simp [admin_statistics, htrue]

/-- Witness for C10: identity 5 is allow-listed while the table stores it as
a plain `student`, and every admin entry point opens for it. -/
theorem C10_is_admin_allowlist_witness :
    (((is_admin (DB.mk [(5, "student")] [] []).users [5] 5).1 = true ↔
       (((DB.mk [(5, "student")] [] []).users.find? (fun p => p.1 = 5)).map
           (fun p => p.2) = some "admin"
        ∨ 5 ∈ [5]))
     ∧ (5 ∈ [5] →
         (admin_add_material_start (DB.mk [(5, "student")] [] []) [5] 5).1 =
           ADMIN_ADD_CLASS
         ∧ (admin_delete_material_start (DB.mk [(5, "student")] [] []) [5] 5).1 =
             ADMIN_DELETE_SELECT_CLASS
         ∧ (admin_panel (DB.mk [(5, "student")] [] []) [5] 5).1 = true
         ∧ (admin_statistics (DB.mk [(5, "student")] [] []) [5] 5).1 = true)) :=
  C10_is_admin_allowlist (DB.mk [(5, "student")] [] []) [5] 5

/-! # Claim C4 -/

/-- C6 counterexample: in the Request flow's SelectSubject state with an
empty context bag (e.g. after an engine restart), submitting the subject
"Физика" does not produce a session-expired reset: the handler falls into
the re-prompt branch whose keyboard construction calls
`get_subjects_for_class(None)` and raises `TypeError`. -/
theorem C6_missing_context_counterexample :
    request_subject (DB.mk [] [] []) [] "Физика" =
      .error ("TypeError: int() argument must not be None", [], DB.mk [] [] []) :=
  rfl

/-- C6 amended: the context-presence guard exists only in some states.
Browse's SelectSubject, SelectCategory and SelectTopic, and AdminAdd's
AwaitFile, do check their required keys before running and reset to idle
with the session-error message; but other context-dependent states perform
no such check: the Request flow's SelectSubject with `req_class_num` missing
raises `TypeError` out of the handler instead of reporting an expired
session, and AdminDelete's SelectTopic with `delete_materials_info` missing
raises `KeyError` (after writing the topic into the context). -/
theorem C6_context_checks_incomplete :
    (∀ (db : DB) (ctx : Ctx) (text : String),
        text ≠ "Назад" → chas ctx "class" = false →
        select_subject db ctx text =
          .ok ⟨END_CONV, ctx, db, ["Ошибка сессии. Начните заново."]⟩)
    ∧ (∀ (uid : Nat) (db : DB) (ctx : Ctx) (text : String) (dOk : Bool),
        text ≠ "Назад к категориям" →
        (chas ctx "class" ∧ chas ctx "subject" ∧ chas ctx "category"
         ∧ chas ctx "topics" ∧ chas ctx "materials_info") = False →
        select_topic uid db ctx text dOk =
          .ok ⟨END_CONV, ctx, db, ["Ошибка сессии. Начните заново."]⟩)
    ∧ (∀ (db : DB) (ctx : Ctx) (a : Attachment) (file_size uid now : Nat)
        (fs : List String) (notifyOk : Nat → Bool),
        (chas ctx "add_class_num" ∧ chas ctx "add_subject"
         ∧ chas ctx "add_category" ∧ chas ctx "add_topic") = False →
        admin_add_file db ctx (some a) file_size uid fs notifyOk now =
          ⟨END_CONV, ctx, db, fs, ["Ошибка сессии. Начните заново."], [], none⟩)
    ∧ (∀ (db : DB) (ctx : Ctx) (text : String),
        text ≠ "Назад" → cget ctx "req_class_num" = none →
        request_subject db ctx text =
          .error ("TypeError: int() argument must not be None", ctx, db))
    ∧ (∀ (db : DB) (ctx : Ctx) (text : String),
        text ≠ "Назад" → (chas ctx "class" ∧ chas ctx "subject") = False →
        select_category db ctx text =
          .ok ⟨END_CONV, ctx, db, ["Ошибка сессии. Начните заново."]⟩)
    ∧ (∀ (db : DB) (ctx : Ctx) (text : String),
        text ≠ "Назад к категориям" →
        cget ctx "delete_materials_info" = none →
        admin_delete_select_topic db ctx text =
          .error ("KeyError: delete_materials_info",
                  cset ctx "delete_topic" (.str text), db)) := by
  refine ⟨?_, ?_, ?_, ?_, ?_, ?_⟩
  · intro db ctx text ht hc
    simp [select_subject, ht, hc]
  · intro uid db ctx text dOk ht hc
    simp only [select_topic, if_neg ht]
    rw [if_pos]
    simp [hc]
  · intro db ctx a file_size uid now fs notifyOk hc
    simp only [admin_add_file]
    rw [if_pos]
    simp [hc]
  · intro db ctx text ht hc
    simp [request_subject, ht, hc]
  · intro db ctx text ht hc
    simp only [select_category, if_neg ht]
    rw [if_pos]
    simp [hc]
  · intro db ctx text ht hinfo
    simp [admin_delete_select_topic, ht, hinfo]

/-- Witness for C6's amended theorem on empty contexts. -/
theorem C6_context_checks_incomplete_witness :
    select_subject (DB.mk [] [] []) [] "Физика" =
      .ok ⟨END_CONV, [], DB.mk [] [] [], ["Ошибка сессии. Начните заново."]⟩
    ∧ select_topic 1 (DB.mk [] [] []) [] "Оптика" true =
        .ok ⟨END_CONV, [], DB.mk [] [] [], ["Ошибка сессии. Начните заново."]⟩
    ∧ admin_add_file (DB.mk [] [] []) [] (some (.document "a.pdf")) 5 1 []
        (fun _ => true) 0 =
        ⟨END_CONV, [], DB.mk [] [] [], [], ["Ошибка сессии. Начните заново."], [], none⟩
    ∧ request_subject (DB.mk [] [] []) [] "Химия" =
        .error ("TypeError: int() argument must not be None", [], DB.mk [] [] [])
    ∧ select_category (DB.mk [] [] []) [] "Конспекты" =
        .ok ⟨END_CONV, [], DB.mk [] [] [], ["Ошибка сессии. Начните заново."]⟩
    ∧ admin_delete_select_topic (DB.mk [] [] []) [] "Оптика" =
        .error ("KeyError: delete_materials_info",
                cset [] "delete_topic" (.str "Оптика"), DB.mk [] [] []) := by
  obtain ⟨t1, t2, t3, t4, t5, t6⟩ := C6_context_checks_incomplete
  exact ⟨t1 (DB.mk [] [] []) [] "Физика" (by decide) rfl,
         t2 1 (DB.mk [] [] []) [] "Оптика" true (by decide) (by simp [chas, cget]),
         t3 (DB.mk [] [] []) [] (.document "a.pdf") 5 1 0 [] (fun _ => true)
           (by simp [chas, cget]),
         t4 (DB.mk [] [] []) [] "Химия" (by decide) rfl,
         t5 (DB.mk [] [] []) [] "Конспекты" (by decide) (by simp [chas, cget]),
         t6 (DB.mk [] [] []) [] "Оптика" (by decide) rfl⟩

/-! # Claim C3 -/

/-- The validity test `select_class` applies to a grade input: first word,
all digits, value in 5..11. -/
def classInputValid (text : String) : Bool :=
  match firstWord text with
  | none => false
  | some w =>
    match parse_class w with
    | none => false
    | some n => decide (5 ≤ n ∧ n ≤ 11)

/-- C3 counterexample: in the Request flow's SelectClass state, the invalid
input "hello" (not one of the offered grade buttons) is *stored into the
context* (`req_class` and `req_class_num`) and then raises `ValueError` while
building the next keyboard — no re-prompt of the same state and two context
fields mutated, contradicting the claim that invalid input mutates nothing
in every state of every flow. -/
theorem C3_invalid_input_counterexample :
    request_class 1 (DB.mk [] [] []) [] "hello" =
      .error ("ValueError: invalid literal for int()",
              [("req_class", .str "hello"), ("req_class_num", .str "hello")],
              DB.mk [] [] []) :=
  rfl

/-- C3 amended: invalid input is re-prompted with the same state, untouched
context and untouched database — hence idempotently, since the handler is a
function of (database, context, input) — in every state that validates its
input: Browse's SelectClass, SelectSubject and SelectTopic, Request's
SelectSubject and EnterTopic, AdminAdd's SelectSubject, EnterTopic and
AwaitFile, and AdminDelete's SelectSubject and Confirm.  It does **not**
hold in every state: Request's SelectClass stores the unvalidated input and
then raises (see the counterexample), Browse's SelectCategory stores any
text as the category before discovering the empty result and re-prompting,
and AdminDelete's SelectTopic stores the topic and then raises `KeyError`
on an unknown one. -/
theorem C3_invalid_input_reprompts_where_validated :
    (∀ (uid : Nat) (db : DB) (ctx : Ctx) (text : String),
        text ≠ "Назад" → classInputValid text = false →
        select_class uid db ctx text =
          .ok ⟨SELECT_CLASS, ctx, db, ["Пожалуйста, выберите класс из списка:"]⟩)
    ∧ (∀ (db : DB) (ctx : Ctx) (text cn : String) (n : Nat),
        text ≠ "Назад" → cget ctx "class" = some (.str cn) →
        parse_class cn = some n → text ∉ get_subjects_for_class n →
        select_subject db ctx text =
          .ok ⟨SELECT_SUBJECT, ctx, db, ["Пожалуйста, выберите предмет из списка:"]⟩)
    ∧ (∀ (uid : Nat) (db : DB) (ctx : Ctx) (text : String) (dOk : Bool)
        (topics : List String),
        text ≠ "Назад к категориям" →
        chas ctx "class" = true → chas ctx "subject" = true →
        chas ctx "category" = true → chas ctx "materials_info" = true →
        cget ctx "topics" = some (.strs topics) → text ∉ topics →
        select_topic uid db ctx text dOk =
          .ok ⟨SELECT_TOPIC, ctx, db, ["Пожалуйста, выберите тему из списка:"]⟩)
    ∧ (∀ (db : DB) (ctx : Ctx) (text : String),
        text.length < 3 →
        request_topic db ctx text =
          .ok ⟨REQUEST_TOPIC, ctx, db,
               ["Слишком короткое название. Введите развернутое название темы:"]⟩)
    ∧ (∀ (db : DB) (ctx : Ctx) (file_size uid now : Nat) (fs : List String)
        (notifyOk : Nat → Bool),
        admin_add_file db ctx none file_size uid fs notifyOk now =
          ⟨ADMIN_ADD_FILE, ctx, db, fs,
           ["Пожалуйста, отправьте файл (документ или изображение)."], [], none⟩)
    ∧ (∀ (db : DB) (ctx : Ctx) (fs : List String) (text : String),
        text ≠ "Назад" → text ≠ "Нет, отменить" → text ≠ "Да, удалить" →
        admin_delete_confirm db ctx fs text =
          ⟨ADMIN_DELETE_CONFIRM, ctx, db, fs,
           ["Пожалуйста, выберите вариант из клавиатуры:"]⟩)
    ∧ (∀ (db : DB) (ctx : Ctx) (text cn : String) (n : Nat),
        text ≠ "Назад" → cget ctx "req_class_num" = some (.str cn) →
        parse_class cn = some n → text ∉ get_subjects_for_class n →
        request_subject db ctx text =
          .ok ⟨REQUEST_SUBJECT, ctx, db, ["Пожалуйста, выберите предмет из списка:"]⟩)
    ∧ (∀ (db : DB) (ctx : Ctx) (text cn : String) (n : Nat),
        text ≠ "Назад" → cget ctx "add_class_num" = some (.str cn) →
        parse_class cn = some n → text ∉ get_subjects_for_class n →
        admin_add_subject db ctx text =
          .ok ⟨ADMIN_ADD_SUBJECT, ctx, db, ["Пожалуйста, выберите предмет из списка:"]⟩)
    ∧ (∀ (db : DB) (ctx : Ctx) (text : String),
        text.length < 2 →
        admin_add_topic db ctx text =
          .ok ⟨ADMIN_ADD_TOPIC, ctx, db,
               ["Слишком короткое название. Введите полное название темы:"]⟩)
    ∧ (∀ (db : DB) (ctx : Ctx) (text cn : String) (n : Nat),
        text ≠ "Назад" → cget ctx "delete_class_num" = some (.str cn) →
        parse_class cn = some n → text ∉ get_subjects_for_class n →
        admin_delete_select_subject db ctx text =
          .ok ⟨ADMIN_DELETE_SELECT_SUBJECT, ctx, db,
               ["Пожалуйста, выберите предмет из списка:"]⟩)
    ∧ (∀ (db : DB) (ctx : Ctx) (text cls subj : String),
        text ≠ "Назад" → cget ctx "class" = some (.str cls) →
        cget ctx "subject" = some (.str subj) →
        db.materials.filter
            (fun m => m.cls = cls ∧ m.subject = subj ∧ m.category = text) = [] →
        select_category db ctx text =
          .ok ⟨SELECT_CATEGORY, cset ctx "category" (.str text), db,
               ["В категории '" ++ text ++ "' пока нет материалов."]⟩)
    ∧ (∀ (db : DB) (ctx : Ctx) (text : String)
        (d : List (String × Nat × Nat × String × String)),
        text ≠ "Назад к категориям" →
        cget ctx "delete_materials_info" = some (.dinfo d) →
        dgetG d text = none →
        admin_delete_select_topic db ctx text =
          .error ("KeyError: topic not in delete_materials_info",
                  cset ctx "delete_topic" (.str text), db)) := by
  refine ⟨?_, ?_, ?_, ?_, fun db ctx fsz uid now fs nOk => rfl, ?_, ?_, ?_, ?_, ?_,
    ?_, ?_⟩
  · intro uid db ctx text ht hv
    simp only [classInputValid] at hv
    simp only [select_class, if_neg ht]
    match hw : firstWord text with
    | none => rfl
    | some w =>
      rw [hw] at hv
      dsimp only at hv ⊢
      match hp : parse_class w with
      | none => rfl
      | some n =>
        rw [hp] at hv
        dsimp only at hv ⊢
        have hcond : n < 5 ∨ 11 < n := by
          have := of_decide_eq_false hv
          omega
        rw [if_pos hcond]
  · intro db ctx text cn n ht hc hp hmem
    simp [select_subject, ht, hc, hp, hmem, chas, asStr]
  · intro uid db ctx text dOk topics ht h1 h2 h3 h4 h5 hmem
    have htop : chas ctx "topics" = true := by simp [chas, h5]
    simp [select_topic, ht, h1, h2, h3, h4, htop, h5, hmem, asStrs]
  · intro db ctx text hlen
    simp [request_topic, hlen]
  · intro db ctx fs text h1 h2 h3
    simp [admin_delete_confirm, h1, h2, h3]
  · intro db ctx text cn n ht hc hp hmem
    simp [request_subject, ht, hc, hp, hmem]
  · intro db ctx text cn n ht hc hp hmem
    simp [admin_add_subject, ht, hc, hp, hmem]
  · intro db ctx text hlen
    simp [admin_add_topic, hlen]
  · intro db ctx text cn n ht hc hp hmem
    simp [admin_delete_select_subject, ht, hc, hp, hmem]
  · intro db ctx text cls subj ht hc hs hfil
    have hch1 : chas ctx "class" = true := by simp [chas, hc]
    have hch2 : chas ctx "subject" = true := by simp [chas, hs]
    simp only [Bool.decide_and] at hfil
    simp [select_category, ht, hc, hs, hch1, hch2, asStr, hfil, sortRows]
  · intro db ctx text d ht hinfo hget
    simp [admin_delete_select_topic, ht, hinfo, hget]

/-- Witness for C3's amended theorem at concrete invalid inputs, one per
conjunct. -/
theorem C3_invalid_input_reprompts_where_validated_witness :
    select_class 1 (DB.mk [] [] []) [] "hello" =
      .ok ⟨SELECT_CLASS, [], DB.mk [] [] [], ["Пожалуйста, выберите класс из списка:"]⟩
    ∧ select_subject (DB.mk [] [] []) [("class", .str "5")] "Химия" =
        .ok ⟨SELECT_SUBJECT, [("class", .str "5")], DB.mk [] [] [],
             ["Пожалуйста, выберите предмет из списка:"]⟩
    ∧ select_topic 1 (DB.mk [] [] [])
        [("class", .str "5"), ("subject", .str "Математика"),
         ("category", .str "Конспекты"), ("topics", .strs ["Дроби"]),
         ("materials_info", .minfo [("Дроби", 0, "f.pdf")])] "Π-теорема" true =
        .ok ⟨SELECT_TOPIC,
             [("class", .str "5"), ("subject", .str "Математика"),
              ("category", .str "Конспекты"), ("topics", .strs ["Дроби"]),
              ("materials_info", .minfo [("Дроби", 0, "f.pdf")])],
             DB.mk [] [] [], ["Пожалуйста, выберите тему из списка:"]⟩
    ∧ request_topic (DB.mk [] [] []) [] "ab" =
        .ok ⟨REQUEST_TOPIC, [], DB.mk [] [] [],
             ["Слишком короткое название. Введите развернутое название темы:"]⟩
    ∧ admin_add_file (DB.mk [] [] []) [] none 5 1 [] (fun _ => true) 0 =
        ⟨ADMIN_ADD_FILE, [], DB.mk [] [] [], [],
         ["Пожалуйста, отправьте файл (документ или изображение)."], [], none⟩
    ∧ admin_delete_confirm (DB.mk [] [] []) [] [] "ну" =
        ⟨ADMIN_DELETE_CONFIRM, [], DB.mk [] [] [], [],
         ["Пожалуйста, выберите вариант из клавиатуры:"]⟩
    ∧ request_subject (DB.mk [] [] []) [("req_class_num", .str "5")] "Химия" =
        .ok ⟨REQUEST_SUBJECT, [("req_class_num", .str "5")], DB.mk [] [] [],
             ["Пожалуйста, выберите предмет из списка:"]⟩
    ∧ admin_add_subject (DB.mk [] [] []) [("add_class_num", .str "5")] "Химия" =
        .ok ⟨ADMIN_ADD_SUBJECT, [("add_class_num", .str "5")], DB.mk [] [] [],
             ["Пожалуйста, выберите предмет из списка:"]⟩
    ∧ admin_add_topic (DB.mk [] [] []) [] "я" =
        .ok ⟨ADMIN_ADD_TOPIC, [], DB.mk [] [] [],
             ["Слишком короткое название. Введите полное название темы:"]⟩
    ∧ admin_delete_select_subject (DB.mk [] [] [])
        [("delete_class_num", .str "5")] "Химия" =
        .ok ⟨ADMIN_DELETE_SELECT_SUBJECT, [("delete_class_num", .str "5")],
             DB.mk [] [] [], ["Пожалуйста, выберите предмет из списка:"]⟩
    ∧ select_category (DB.mk [] [] [])
        [("class", .str "5"), ("subject", .str "Математика")] "мусор" =
        .ok ⟨SELECT_CATEGORY,
             cset [("class", .str "5"), ("subject", .str "Математика")]
               "category" (.str "мусор"),
             DB.mk [] [] [], ["В категории '" ++ "мусор" ++ "' пока нет материалов."]⟩
    ∧ admin_delete_select_topic (DB.mk [] [] [])
        [("delete_materials_info", .dinfo [])] "Оптика" =
        .error ("KeyError: topic not in delete_materials_info",
                cset [("delete_materials_info", .dinfo [])] "delete_topic"
                  (.str "Оптика"),
                DB.mk [] [] []) := by
  obtain ⟨t1, t2, t3, t4, t5, t6, t7, t8, t9, t10, t11, t12⟩ :=
    C3_invalid_input_reprompts_where_validated
  exact ⟨t1 1 (DB.mk [] [] []) [] "hello" (by decide) (by decide),
         t2 (DB.mk [] [] []) [("class", .str "5")] "Химия" "5" 5 (by decide) rfl
           (by decide) (by decide),
         t3 1 (DB.mk [] [] [])
           [("class", .str "5"), ("subject", .str "Математика"),
            ("category", .str "Конспекты"), ("topics", .strs ["Дроби"]),
            ("materials_info", .minfo [("Дроби", 0, "f.pdf")])] "Π-теорема" true
           ["Дроби"] (by decide) rfl rfl rfl rfl rfl (by decide),
         t4 (DB.mk [] [] []) [] "ab" (by decide),
         t5 (DB.mk [] [] []) [] 5 1 0 [] (fun _ => true),
         t6 (DB.mk [] [] []) [] [] "ну" (by decide) (by decide) (by decide),
         t7 (DB.mk [] [] []) [("req_class_num", .str "5")] "Химия" "5" 5
           (by decide) rfl (by decide) (by decide),
         t8 (DB.mk [] [] []) [("add_class_num", .str "5")] "Химия" "5" 5
           (by decide) rfl (by decide) (by decide),
         t9 (DB.mk [] [] []) [] "я" (by decide),
         t10 (DB.mk [] [] []) [("delete_class_num", .str "5")] "Химия" "5" 5
           (by decide) rfl (by decide) (by decide),
         t11 (DB.mk [] [] [])
           [("class", .str "5"), ("subject", .str "Математика")] "мусор" "5"
           "Математика" (by decide) rfl rfl (by decide),
         t12 (DB.mk [] [] []) [("delete_materials_info", .dinfo [])] "Оптика" []
           (by decide) rfl rfl⟩

/-! # Claim C5 -/

/-- Database component of a handler outcome (also defined on the error case,
whose payload carries the database as committed before the raise). -/
def hmDb : HM → DB
  | .ok r => r.db
  | .error e => e.2.2

/-- C5 counterexample: a retrieval whose file delivery *fails*
(`FileNotFoundError` on the stored path, `deliveryOk = false`) still
increments the download counter: the `UPDATE` is committed before the send
is attempted, so the counter goes 0 → 1 although no successful delivery
happened — contradicting "increases … by zero otherwise". -/
theorem C5_increment_on_failed_delivery_counterexample :
    select_topic 9
      (DB.mk [] [⟨1, "7", "Физика", "Конспекты", "Теплота", "data/p", "p.pdf", 10, 0, 2⟩] [])
      [("class", .str "7"), ("class_text", .str "7 класс"),
       ("subject", .str "Физика"), ("category", .str "Конспекты"),
       ("topics", .strs ["Теплота"]),
       ("materials_info", .minfo [("Теплота", 0, "p.pdf")])]
      "Теплота" false =
      .ok ⟨END_CONV, [("class_text", .str "7 класс")],
           DB.mk [(9, "student")]
             [⟨1, "7", "Физика", "Конспекты", "Теплота", "data/p", "p.pdf", 10, 1, 2⟩] [],
           ["Файл не найден на сервере. Сообщите администратору.",
            "Файл успешно отправлен!\n\nЧто хотите сделать дальше?"]⟩ :=
  rfl

/-- The condition under which `select_topic` reaches its fetch-success path:
the input is not the back button, the five required context keys are
present, the input is one of the stored topics, the key components are
strings, and the store holds a matching material row. -/
def retrievalFound (db : DB) (ctx : Ctx) (text : String) : Prop :=
  text ≠ "Назад к категориям"
  ∧ chas ctx "class" = true
  ∧ chas ctx "subject" = true
  ∧ chas ctx "category" = true
  ∧ chas ctx "topics" = true
  ∧ chas ctx "materials_info" = true
  ∧ (∃ topics, asStrs (cget ctx "topics") = some topics ∧ text ∈ topics)
  ∧ (∃ cls subj cat,
      asStr (cget ctx "class") = some cls
      ∧ asStr (cget ctx "subject") = some subj
      ∧ asStr (cget ctx "category") = some cat
      ∧ (db.materials.find? (fun m => matchesKey m cls subj cat text)).isSome)

/-- C5 amended: the download counter of a material is incremented by exactly
one per retrieval in which the material row is *found* (`retrievalFound`),
regardless of whether the delivery succeeds — the resulting database is
identical for a successful and for a failed delivery; on every other path
(back, missing context, invalid topic, row not found, raise) the materials
table is unchanged; and a single `incrementDownload` changes each row's
`downloads` by exactly one when it matches and returns it verbatim otherwise
— so the counter is never decremented and never reset. -/
theorem C5_download_counter_per_attempt :
    (∀ (uid : Nat) (db : DB) (ctx : Ctx) (text : String),
        hmDb (select_topic uid db ctx text true) =
          hmDb (select_topic uid db ctx text false))
    ∧ (∀ (uid : Nat) (db : DB) (ctx : Ctx) (text : String) (dOk : Bool),
        retrievalFound db ctx text →
        ∃ cls subj cat, asStr (cget ctx "class") = some cls
          ∧ asStr (cget ctx "subject") = some subj
          ∧ asStr (cget ctx "category") = some cat
          ∧ (hmDb (select_topic uid db ctx text dOk)).materials =
              incrementDownload db.materials cls subj cat text)
    ∧ (∀ (uid : Nat) (db : DB) (ctx : Ctx) (text : String) (dOk : Bool),
        ¬ retrievalFound db ctx text →
        (hmDb (select_topic uid db ctx text dOk)).materials = db.materials)
    ∧ (∀ (ms : List Material) (c s a t : String) (i : Nat) (m : Material),
        ms[i]? = some m →
        (incrementDownload ms c s a t)[i]? =
          some (if matchesKey m c s a t then
                  { m with downloads := m.downloads + 1 }
                else m)) := by
  refine ⟨?_, ?_, ?_, ?_⟩
  · intro uid db ctx text
    unfold select_topic
    repeat' split
    all_goals rfl
  · intro uid db ctx text dOk h
    obtain ⟨ht, hk1, hk2, hk3, hk4, hk5, ⟨topics, htop, hmem⟩,
      cls, subj, cat, hc, hs, hcat, hfs⟩ := h
    obtain ⟨m, hfind⟩ := Option.isSome_iff_exists.mp hfs
    refine ⟨cls, subj, cat, hc, hs, hcat, ?_⟩
    simp [select_topic, ht, hk1, hk2, hk3, hk4, hk5, htop, hmem, hc, hs, hcat,
      hfind, hmDb]
  · intro uid db ctx text dOk hnf
    unfold select_topic
    split
    · rfl
    · split
      · rfl
      · split
        · rfl
        · split
          · rfl
          · split
            · split
              · rfl
              · exfalso
                rename_i hback hconj xa topics htop hmem xb xc xd cls subj cat
                  hc hs hcat xe m hfind
                have hcj := not_not.mp hconj
                exact hnf ⟨hback, hcj.1, hcj.2.1, hcj.2.2.1, hcj.2.2.2.1,
                  hcj.2.2.2.2, ⟨topics, htop, not_not.mp hmem⟩,
                  ⟨cls, subj, cat, hc, hs, hcat, by rw [hfind]; rfl⟩⟩
            · rfl
  · intro ms c s a t i m hm
    simp [incrementDownload, List.getElem?_map, hm]

/-- Witness for C5's amended theorem on a one-row catalog: the
delivery-independence and pointwise conjuncts at concrete inputs, the
found-retrieval conjunct at a context whose retrieval succeeds, and the
otherwise-unchanged conjunct at an empty context. -/
theorem C5_download_counter_per_attempt_witness :
    hmDb (select_topic 9
      (DB.mk [] [⟨1, "7", "Физика", "Конспекты", "Теплота", "data/p", "p.pdf", 10, 0, 2⟩] [])
      [("class", .str "7"), ("subject", .str "Физика"),
       ("category", .str "Конспекты"), ("topics", .strs ["Теплота"]),
       ("materials_info", .minfo [("Теплота", 0, "p.pdf")])] "Теплота" true) =
      hmDb (select_topic 9
        (DB.mk [] [⟨1, "7", "Физика", "Конспекты", "Теплота", "data/p", "p.pdf", 10, 0, 2⟩] [])
        [("class", .str "7"), ("subject", .str "Физика"),
         ("category", .str "Конспекты"), ("topics", .strs ["Теплота"]),
         ("materials_info", .minfo [("Теплота", 0, "p.pdf")])] "Теплота" false)
    ∧ (∃ cls subj cat,
        asStr (cget [("class", .str "7"), ("subject", .str "Физика"),
          ("category", .str "Конспекты"), ("topics", .strs ["Теплота"]),
          ("materials_info", .minfo [("Теплота", 0, "p.pdf")])] "class") = some cls
        ∧ asStr (cget [("class", .str "7"), ("subject", .str "Физика"),
            ("category", .str "Конспекты"), ("topics", .strs ["Теплота"]),
            ("materials_info", .minfo [("Теплота", 0, "p.pdf")])] "subject") = some subj
        ∧ asStr (cget [("class", .str "7"), ("subject", .str "Физика"),
            ("category", .str "Конспекты"), ("topics", .strs ["Теплота"]),
            ("materials_info", .minfo [("Теплота", 0, "p.pdf")])] "category") = some cat
        ∧ (hmDb (select_topic 9
            (DB.mk [] [⟨1, "7", "Физика", "Конспекты", "Теплота", "data/p", "p.pdf", 10, 0, 2⟩] [])
            [("class", .str "7"), ("subject", .str "Физика"),
             ("category", .str "Конспекты"), ("topics", .strs ["Теплота"]),
             ("materials_info", .minfo [("Теплота", 0, "p.pdf")])] "Теплота" false)).materials =
            incrementDownload
              (DB.mk [] [⟨1, "7", "Физика", "Конспекты", "Теплота", "data/p", "p.pdf", 10, 0, 2⟩] []).materials
              cls subj cat "Теплота")
    ∧ (hmDb (select_topic 9 (DB.mk [] [] []) [] "Теплота" true)).materials =
        (DB.mk [] [] [] : DB).materials
    ∧ ((incrementDownload
          [⟨1, "7", "Физика", "Конспекты", "Теплота", "data/p", "p.pdf", 10, 0, 2⟩]
          "7" "Физика" "Конспекты" "Теплота")[0]? =
        some (if matchesKey
                  ⟨1, "7", "Физика", "Конспекты", "Теплота", "data/p", "p.pdf", 10, 0, 2⟩
                  "7" "Физика" "Конспекты" "Теплота" then
                { (⟨1, "7", "Физика", "Конспекты", "Теплота", "data/p", "p.pdf", 10, 0, 2⟩ :
                    Material) with downloads := 0 + 1 }
              else ⟨1, "7", "Физика", "Конспекты", "Теплота", "data/p", "p.pdf", 10, 0, 2⟩)) := by
  obtain ⟨t1, t2, t3, t4⟩ := C5_download_counter_per_attempt
  refine ⟨t1 9
      (DB.mk [] [⟨1, "7", "Физика", "Конспекты", "Теплота", "data/p", "p.pdf", 10, 0, 2⟩] [])
      [("class", .str "7"), ("subject", .str "Физика"),
       ("category", .str "Конспекты"), ("topics", .strs ["Теплота"]),
       ("materials_info", .minfo [("Теплота", 0, "p.pdf")])] "Теплота",
    t2 9
      (DB.mk [] [⟨1, "7", "Физика", "Конспекты", "Теплота", "data/p", "p.pdf", 10, 0, 2⟩] [])
      [("class", .str "7"), ("subject", .str "Физика"),
       ("category", .str "Конспекты"), ("topics", .strs ["Теплота"]),
       ("materials_info", .minfo [("Теплота", 0, "p.pdf")])] "Теплота" false
      ⟨by decide, rfl, rfl, rfl, rfl, rfl, ⟨["Теплота"], rfl, by decide⟩,
       ⟨"7", "Физика", "Конспекты", rfl, rfl, rfl, by decide⟩⟩,
    t3 9 (DB.mk [] [] []) [] "Теплота" true ?_,
    t4 [⟨1, "7", "Физика", "Конспекты", "Теплота", "data/p", "p.pdf", 10, 0, 2⟩]
      "7" "Физика" "Конспекты" "Теплота" 0 _ (by decide)⟩
  intro h
  exact absurd h.2.1 (by decide)

/-! # Claim C8 -/

/-- C8: the collision loop returns only a path that is free — a stored file
is never overwritten — and, concretely, uploading `notes.pdf` twice into the
same (grade 9, Физика, Конспекты) slot stores the first file under
`.../notes.pdf` and the second under the suffixed distinct path
`.../notes_1.pdf`. -/
theorem C8_collision_suffix :
    (∀ (fs : List String) (dir base ext : String) (fuel : Nat)
       (cand : String) (counter : Nat) (nm pth : String),
        resolve_name fs dir base ext cand counter fuel = some (nm, pth) →
        pth ∉ fs)
    ∧ (admin_add_file (DB.mk [] [] [])
        [("add_class_num", .str "9"), ("add_subject", .str "Физика"),
         ("add_category", .str "Конспекты"), ("add_topic", .str "Законы Ньютона")]
        (some (.document "notes.pdf")) 100 1 [] (fun _ => true) 0).fs =
        ["data/9_class/Физика/Конспекты/notes.pdf"]
    ∧ (admin_add_file (DB.mk [] [] [])
        [("add_class_num", .str "9"), ("add_subject", .str "Физика"),
         ("add_category", .str "Конспекты"), ("add_topic", .str "Законы Ньютона")]
        (some (.document "notes.pdf")) 200 1
        ["data/9_class/Физика/Конспекты/notes.pdf"] (fun _ => true) 0).fs =
        ["data/9_class/Физика/Конспекты/notes.pdf",
         "data/9_class/Физика/Конспекты/notes_1.pdf"]
    ∧ ("data/9_class/Физика/Конспекты/notes.pdf" : String) ≠
        "data/9_class/Физика/Конспекты/notes_1.pdf" := by
  refine ⟨?_, by decide, by decide, by decide⟩
  intro fs dir base ext fuel
  induction fuel with
  | zero =>
    intro cand counter nm pth h
    unfold resolve_name at h
    split at h
    · exact Option.noConfusion h
    · rename_i hmem
      cases h
      exact hmem
  | succ f ih =>
    intro cand counter nm pth h
    unfold resolve_name at h
    split at h
    · exact ih _ _ nm pth h
    · rename_i hmem
      cases h
      exact hmem

/-- Witness for C8's collision-loop soundness at a concrete store: resolving
`notes.pdf` against an occupied slot yields `notes_1.pdf`, which is not among
the stored paths. -/
theorem C8_collision_suffix_witness :
    ("data/9_class/Физика/Конспекты/notes_1.pdf" : String) ∉
      ["data/9_class/Физика/Конспекты/notes.pdf"] :=
  C8_collision_suffix.1 ["data/9_class/Физика/Конспекты/notes.pdf"]
    "data/9_class/Физика/Конспекты" "notes" ".pdf" 2 "notes.pdf" 1
    "notes_1.pdf" "data/9_class/Физика/Конспекты/notes_1.pdf" (by decide)

/-! # Claim C2 -/

/-- Folding the matcher's per-id `UPDATE` over a list of ids marks exactly
the rows whose id occurs in the list. -/
theorem completeById_foldl (now : Nat) (ids : List Nat) :
    ∀ rs : List Request, ids.foldl (completeById now) rs =
      rs.map (fun r => if r.id ∈ ids then
        { r with status := "completed", completed_at := some now } else r) := by
  induction ids with
  | nil =>
    intro rs
    simp
  | cons a as ih =>
    intro rs
    rw [List.foldl_cons, ih, completeById, List.map_map]
    apply List.map_congr_left
    intro r _
    simp only [Function.comp]
    by_cases hra : r.id = a
    · by_cases hmem : r.id ∈ as
      · simp [hra, hmem]
      · simp [hra, hmem]
    · by_cases hmem : r.id ∈ as
      · simp [hra, hmem]
      · simp [hra, hmem]

/-- Under the primary-key invariant, an id of a row of `rqs` occurs among the
ids of the `p`-filtered rows exactly when the row itself satisfies `p`. -/
theorem mem_filter_ids (rqs : List Request) (p : Request → Bool) (r : Request)
    (hnd : (rqs.map (fun x => x.id)).Nodup) (hr : r ∈ rqs) :
    (r.id ∈ (rqs.filter p).map (fun x => x.id)) ↔ p r := by
  constructor
  · intro hmem
    obtain ⟨r', hr', heq⟩ := List.mem_map.mp hmem
    have hf := List.mem_filter.mp hr'
    have hrr : r' = r := List.inj_on_of_nodup_map hnd hf.1 hr heq
    rw [hrr] at hf
    exact hf.2
  · intro hp
    exact List.mem_map.mpr ⟨r, List.mem_filter.mpr ⟨hr, hp⟩, rfl⟩

/-- The matcher's fold (select matching pending rows, update each by id)
equals the pointwise completion of exactly the `p`-rows, given distinct ids. -/
theorem matcher_requests_eq (now : Nat) (rqs : List Request) (p : Request → Bool)
    (hnd : (rqs.map (fun x => x.id)).Nodup) :
    ((rqs.filter p).map (fun r => (r.id, r.user_id))).foldl
        (fun rs q => completeById now rs q.1) rqs =
      rqs.map (fun r => if p r then
        { r with status := "completed", completed_at := some now } else r) := by
  have h1 : ((rqs.filter p).map (fun r => (r.id, r.user_id))).foldl
        (fun rs q => completeById now rs q.1) rqs
      = ((rqs.filter p).map (fun x => x.id)).foldl (completeById now) rqs := by
    rw [List.foldl_map, List.foldl_map]
  rw [h1, completeById_foldl]
  apply List.map_congr_left
  intro r hr
  simp only [mem_filter_ids rqs p r hnd hr]

/-- C2 counterexample: a successful insert with *zero* matching pending
requests sends no auto-resolved report at all (`resolvedCount = none`) — the
code only reports when the count is non-zero — so "the admin is told the
count of auto-resolved requests" fails on this run (the admin is not told
"0").  The unrelated pending request is left untouched and the material row
is inserted. -/
theorem C2_zero_match_counterexample :
    (admin_add_file
        (DB.mk [] [] [⟨1, 42, "9", "Физика", "Конспекты", "Оптика", none, "pending", none⟩])
        [("add_class_num", .str "9"), ("add_subject", .str "Физика"),
         ("add_category", .str "Конспекты"), ("add_topic", .str "Законы Ньютона")]
        (some (.document "notes.pdf")) 100 1 [] (fun _ => true) 0).resolvedCount = none
    ∧ (admin_add_file
        (DB.mk [] [] [⟨1, 42, "9", "Физика", "Конспекты", "Оптика", none, "pending", none⟩])
        [("add_class_num", .str "9"), ("add_subject", .str "Физика"),
         ("add_category", .str "Конспекты"), ("add_topic", .str "Законы Ньютона")]
        (some (.document "notes.pdf")) 100 1 [] (fun _ => true) 0).db.requests =
        [⟨1, 42, "9", "Физика", "Конспекты", "Оптика", none, "pending", none⟩]
    ∧ ((admin_add_file
        (DB.mk [] [] [⟨1, 42, "9", "Физика", "Конспекты", "Оптика", none, "pending", none⟩])
        [("add_class_num", .str "9"), ("add_subject", .str "Физика"),
         ("add_category", .str "Конспекты"), ("add_topic", .str "Законы Ньютона")]
        (some (.document "notes.pdf")) 100 1 [] (fun _ => true) 0).db.materials.length = 1
       ∧ (admin_add_file
        (DB.mk [] [] [⟨1, 42, "9", "Физика", "Конспекты", "Оптика", none, "pending", none⟩])
        [("add_class_num", .str "9"), ("add_subject", .str "Физика"),
         ("add_category", .str "Конспекты"), ("add_topic", .str "Законы Ньютона")]
        (some (.document "notes.pdf")) 100 1 [] (fun _ => true) 0).state = END_CONV) := by
  refine ⟨by decide, by decide, by decide, by decide⟩

/-- C2 amended: after `admin_add_file` successfully inserts a material with
key (grade, subject, category, topic), exactly the requests that are
`pending` and string-equal on the whole 4-tuple are set to `completed` with
`completed_at` filled, pointwise and independently of request order; every
other request is returned verbatim; the database outcome does not depend on
the notification oracle, so a failed requester notification cannot undo a
completion; one notification per matched request is attempted; and the admin
is told the count of auto-resolved requests *only when it is non-zero* — on
a zero-match insert no report is sent.  The primary-key hypothesis (`Nodup`
ids) reflects the `AUTOINCREMENT` id column. -/
theorem C2_matcher_completes_exact_matches
    (db : DB) (ctx : Ctx) (fn : String) (file_size uid now : Nat)
    (fs : List String) (notifyOk : Nat → Bool) (cn subj cat top : String)
    (h1 : cget ctx "add_class_num" = some (.str cn))
    (h2 : cget ctx "add_subject" = some (.str subj))
    (h3 : cget ctx "add_category" = some (.str cat))
    (h4 : cget ctx "add_topic" = some (.str top))
    (hnd : (db.requests.map (fun r => r.id)).Nodup)
    (nm pth : String)
    (hres : resolve_name fs ("data/" ++ cn ++ "_class/" ++ subj ++ "/" ++ cat)
        (splitext fn).1 (splitext fn).2 fn 1 (fs.length + 1) = some (nm, pth)) :
    (admin_add_file db ctx (some (.document fn)) file_size uid fs notifyOk now).db.requests =
      db.requests.map (fun r =>
        if matchesPending r cn subj cat top then
          { r with status := "completed", completed_at := some now }
        else r)
    ∧ (admin_add_file db ctx (some (.document fn)) file_size uid fs notifyOk now).db.materials =
        db.materials ++
          [⟨freshId db.materials, cn, subj, cat, top, pth, nm, file_size, 0, uid⟩]
    ∧ (admin_add_file db ctx (some (.document fn)) file_size uid fs notifyOk now).resolvedCount =
        (if db.requests.filter (fun r => matchesPending r cn subj cat top) = [] then
           none
         else
           some (db.requests.filter (fun r => matchesPending r cn subj cat top)).length)
    ∧ (admin_add_file db ctx (some (.document fn)) file_size uid fs notifyOk now).notifications =
        (db.requests.filter (fun r => matchesPending r cn subj cat top)).map
          (fun r => (r.id, r.user_id, notifyOk r.user_id))
    ∧ (admin_add_file db ctx (some (.document fn)) file_size uid fs notifyOk now).state =
        END_CONV
    ∧ (admin_add_file db ctx (some (.document fn)) file_size uid fs notifyOk now).fs =
        fs ++ [pth] := by
  have hc1 : chas ctx "add_class_num" = true := by simp [chas, h1]
  have hc2 : chas ctx "add_subject" = true := by simp [chas, h2]
  have hc3 : chas ctx "add_category" = true := by simp [chas, h3]
  have hc4 : chas ctx "add_topic" = true := by simp [chas, h4]
  simp only [admin_add_file, h1, h2, h3, h4, hc1, hc2, hc3, hc4, asStr, hres,
    and_self, not_true_eq_false, if_false, Bool.true_and]
  refine ⟨?_, trivial, ?_, ?_, trivial⟩
  · exact matcher_requests_eq now db.requests
      (fun r => matchesPending r cn subj cat top) hnd
  · cases hfil : db.requests.filter (fun r => matchesPending r cn subj cat top) with
    | nil => simp [hfil]
    | cons a l => simp [hfil]
  · rw [List.map_map]
    rfl

/-- Witness for C2: three pending requests match the inserted key, one
pending request differs in the topic; the matcher completes exactly the
three (in one pointwise pass), reports the count 3, attempts one
notification per matched requester, and leaves the fourth request pending.
The notification oracle fails for user 42 — the completions stand anyway. -/
theorem C2_matcher_completes_exact_matches_witness :
    (admin_add_file
        (DB.mk [] []
          [⟨1, 41, "9", "Физика", "Конспекты", "Законы Ньютона", none, "pending", none⟩,
           ⟨2, 42, "9", "Физика", "Конспекты", "Законы Ньютона", none, "pending", none⟩,
           ⟨3, 43, "9", "Физика", "Конспекты", "Законы Ньютона", none, "pending", none⟩,
           ⟨4, 44, "9", "Физика", "Конспекты", "Оптика", none, "pending", none⟩])
        [("add_class_num", .str "9"), ("add_subject", .str "Физика"),
         ("add_category", .str "Конспекты"), ("add_topic", .str "Законы Ньютона")]
        (some (.document "notes.pdf")) 100 1 [] (fun u => decide (u ≠ 42)) 5).db.requests =
      (DB.mk [] []
          [⟨1, 41, "9", "Физика", "Конспекты", "Законы Ньютона", none, "pending", none⟩,
           ⟨2, 42, "9", "Физика", "Конспекты", "Законы Ньютона", none, "pending", none⟩,
           ⟨3, 43, "9", "Физика", "Конспекты", "Законы Ньютона", none, "pending", none⟩,
           ⟨4, 44, "9", "Физика", "Конспекты", "Оптика", none, "pending", none⟩]).requests.map
        (fun r =>
          if matchesPending r "9" "Физика" "Конспекты" "Законы Ньютона" then
            { r with status := "completed", completed_at := some 5 }
          else r)
    ∧ (admin_add_file
        (DB.mk [] []
          [⟨1, 41, "9", "Физика", "Конспекты", "Законы Ньютона", none, "pending", none⟩,
           ⟨2, 42, "9", "Физика", "Конспекты", "Законы Ньютона", none, "pending", none⟩,
           ⟨3, 43, "9", "Физика", "Конспекты", "Законы Ньютона", none, "pending", none⟩,
           ⟨4, 44, "9", "Физика", "Конспекты", "Оптика", none, "pending", none⟩])
        [("add_class_num", .str "9"), ("add_subject", .str "Физика"),
         ("add_category", .str "Конспекты"), ("add_topic", .str "Законы Ньютона")]
        (some (.document "notes.pdf")) 100 1 [] (fun u => decide (u ≠ 42)) 5).resolvedCount =
        some 3
    ∧ (admin_add_file
        (DB.mk [] []
          [⟨1, 41, "9", "Физика", "Конспекты", "Законы Ньютона", none, "pending", none⟩,
           ⟨2, 42, "9", "Физика", "Конспекты", "Законы Ньютона", none, "pending", none⟩,
           ⟨3, 43, "9", "Физика", "Конспекты", "Законы Ньютона", none, "pending", none⟩,
           ⟨4, 44, "9", "Физика", "Конспекты", "Оптика", none, "pending", none⟩])
        [("add_class_num", .str "9"), ("add_subject", .str "Физика"),
         ("add_category", .str "Конспекты"), ("add_topic", .str "Законы Ньютона")]
        (some (.document "notes.pdf")) 100 1 [] (fun u => decide (u ≠ 42)) 5).notifications =
        [(1, 41, true), (2, 42, false), (3, 43, true)] := by
  obtain ⟨hreq, hmat, hcount, hnote, hstate, hfs⟩ :=
    C2_matcher_completes_exact_matches
      (DB.mk [] []
        [⟨1, 41, "9", "Физика", "Конспекты", "Законы Ньютона", none, "pending", none⟩,
         ⟨2, 42, "9", "Физика", "Конспекты", "Законы Ньютона", none, "pending", none⟩,
         ⟨3, 43, "9", "Физика", "Конспекты", "Законы Ньютона", none, "pending", none⟩,
         ⟨4, 44, "9", "Физика", "Конспекты", "Оптика", none, "pending", none⟩])
      [("add_class_num", .str "9"), ("add_subject", .str "Физика"),
       ("add_category", .str "Конспекты"), ("add_topic", .str "Законы Ньютона")]
      "notes.pdf" 100 1 5 [] (fun u => decide (u ≠ 42)) "9" "Физика" "Конспекты"
      "Законы Ньютона" rfl rfl rfl rfl (by decide) "notes.pdf"
      "data/9_class/Физика/Конспекты/notes.pdf" (by decide)
  refine ⟨hreq, ?_, ?_⟩
  · rw [hcount]; decide
  · rw [hnote]; decide

end SchoolBot
